import Mathlib

/-!
Shallow embedding of `src/Stopwatch_Design/main.c` (ECE425L stopwatch).

The C program keeps six `uint8_t` globals (`ms_elapsed`, `milliseconds`,
`seconds`, `minutes`, `start_stopwatch`, `reset_stopwatch`) plus an 8-bit
selection `counter`, mutated by three interrupt handlers
(`Timer_0A_Periodic_Task`, `PMOD_BTN_Handler`, `EduBase_Button_Handler`)
and read by the pure projection `Calculate_Stopwatch_Value`.  We model the
globals as one record and each handler as a state-transformer; `uint8_t`
increments are modelled as `(x + 1) % 256`.
-/

namespace Stopwatch

/-- Modelled from the spec: the symbolic RGB LED indicator values
(`RGB_LED_GREEN` = running, `RGB_LED_RED` = stopped, `RGB_LED_OFF` = off)
are constants of the missing header `GPIO.h`; only their identity matters. -/
inductive RGBLedValue where
  | GREEN
  | RED
  | OFF
deriving DecidableEq, Repr

/-- The process-wide mutable globals of `main.c` (all `uint8_t`). -/
structure State where
  ms_elapsed : Nat
  milliseconds : Nat
  seconds : Nat
  minutes : Nat
  start_stopwatch : Nat
  reset_stopwatch : Nat
  counter : Nat
  rgb_led : RGBLedValue
deriving DecidableEq, Repr

/-- The zero-initialized startup state (C globals are `static ... = 0`;
the RGB LED starts off). -/
def initState : State :=
  { ms_elapsed := 0, milliseconds := 0, seconds := 0, minutes := 0,
    start_stopwatch := 0, reset_stopwatch := 0, counter := 0,
    rgb_led := RGBLedValue.OFF }

/-- `Timer_0A_Periodic_Task` of `main.c`, lines 236-282: the 1 ms tick
handler.  First, if `start_stopwatch == 0x01`, it increments `ms_elapsed`
and propagates the carries sub-ms → milliseconds → seconds → minutes;
then, if `reset_stopwatch == 0x01`, it clears both flags and zeroes the
four counters. -/
def Timer_0A_Periodic_Task (s : State) : State :=
  let s1 :=
    if s.start_stopwatch = 0x01 then
      let me := (s.ms_elapsed + 1) % 256
      if 99 < me then
        let ms := (s.milliseconds + 1) % 256
        if 9 < ms then
          let sec := (s.seconds + 1) % 256
          if 59 < sec then
            let mn := (s.minutes + 1) % 256
            if 9 < mn then
              { s with ms_elapsed := 0, milliseconds := 0, seconds := 0, minutes := 0 }
            else
              { s with ms_elapsed := 0, milliseconds := 0, seconds := 0, minutes := mn }
          else
            { s with ms_elapsed := 0, milliseconds := 0, seconds := sec }
        else
          { s with ms_elapsed := 0, milliseconds := ms }
      else
        { s with ms_elapsed := me }
    else s
  if s1.reset_stopwatch = 0x01 then
    { s1 with
      reset_stopwatch := 0
      start_stopwatch := 0
      ms_elapsed := 0
      milliseconds := 0
      seconds := 0
      minutes := 0 }
  else s1

/-- `PMOD_BTN_Handler` of `main.c`, lines 108-148: the control-input
handler, given the PMOD button status byte.  `0x04` = Start, `0x08` =
Stop, `0x10` = Reset, `0x20` = reserved no-op, anything else no-op. -/
def PMOD_BTN_Handler (pmod_btn_status : Nat) (s : State) : State :=
  if pmod_btn_status = 0x04 then
    { s with rgb_led := RGBLedValue.GREEN, start_stopwatch := 0x01 }
  else if pmod_btn_status = 0x08 then
    { s with rgb_led := RGBLedValue.RED, start_stopwatch := 0x00 }
  else if pmod_btn_status = 0x10 then
    { s with rgb_led := RGBLedValue.OFF, reset_stopwatch := 0x01 }
  else if pmod_btn_status = 0x20 then
    s
  else s

/-- `EduBase_Button_Handler` of `main.c`, lines 162-197: adjusts the
4-bit selection `counter` (`0x08` increments with wrap at 15, `0x04`
decrements with wrap at 0, anything else no-op). -/
def EduBase_Button_Handler (edubase_button_status : Nat) (s : State) : State :=
  if edubase_button_status = 0x08 then
    if 15 ≤ s.counter then { s with counter := 0 }
    else { s with counter := (s.counter + 1) % 256 }
  else if edubase_button_status = 0x04 then
    if s.counter ≤ 0 then { s with counter := 15 }
    else { s with counter := s.counter - 1 }
  else s

/-- `Calculate_Stopwatch_Value` of `main.c`, lines 205-220: fills the
4-entry display array `[milliseconds, seconds % 10, seconds / 10,
minutes]` from the globals, modifying nothing else. -/
def Calculate_Stopwatch_Value (s : State) : List Nat :=
  [s.milliseconds, s.seconds % 10, s.seconds / 10, s.minutes]

/-- States reachable from the zero-initialized startup state by any
interleaving of the tick handler and the two control-input handlers
(observed outside handler bodies). -/
inductive Reachable : State → Prop where
  | init : Reachable initState
  | tick : ∀ {s : State}, Reachable s → Reachable (Timer_0A_Periodic_Task s)
  | pmod : ∀ {s : State} (b : Nat), Reachable s → Reachable (PMOD_BTN_Handler b s)
  | edubase : ∀ {s : State} (b : Nat), Reachable s → Reachable (EduBase_Button_Handler b s)

/-- The digit-range invariant of the four timekeeping counters. -/
def TimeInv (s : State) : Prop :=
  s.ms_elapsed ≤ 99 ∧ s.milliseconds ≤ 9 ∧ s.seconds ≤ 59 ∧ s.minutes ≤ 9

instance (s : State) : Decidable (TimeInv s) := by
  unfold TimeInv
  infer_instance

theorem tick_preserves_TimeInv (s : State) (h : TimeInv s) :
    TimeInv (Timer_0A_Periodic_Task s) := by
  obtain ⟨h1, h2, h3, h4⟩ := h
  simp only [Timer_0A_Periodic_Task, TimeInv]
  split_ifs <;> simp_all

theorem pmod_preserves_TimeInv (b : Nat) (s : State) (h : TimeInv s) :
    TimeInv (PMOD_BTN_Handler b s) := by
  obtain ⟨h1, h2, h3, h4⟩ := h
  simp only [TimeInv, PMOD_BTN_Handler]
  split_ifs <;> simp_all

theorem edubase_preserves_TimeInv (b : Nat) (s : State) (h : TimeInv s) :
    TimeInv (EduBase_Button_Handler b s) := by
  obtain ⟨h1, h2, h3, h4⟩ := h
  simp only [EduBase_Button_Handler, TimeInv]
  split_ifs <;> simp_all

theorem reachable_TimeInv (s : State) (h : Reachable s) : TimeInv s := by
  induction h with
  | init => decide
  | tick _ ih => exact tick_preserves_TimeInv _ ih
  | pmod b _ ih => exact pmod_preserves_TimeInv b _ ih
  | edubase b _ ih => exact edubase_preserves_TimeInv b _ ih

/-- C1: every state reachable from the zero-initialized state by any
interleaving of tick-handler and control-input-handler invocations
satisfies `ms_elapsed ≤ 99`, `milliseconds ≤ 9`, `seconds ≤ 59` and
`minutes ≤ 9` (the lower bounds hold since the fields are naturals). -/
theorem C1_reachable_digit_invariant (s : State) (h : Reachable s) :
    s.ms_elapsed ≤ 99 ∧ s.milliseconds ≤ 9 ∧ s.seconds ≤ 59 ∧ s.minutes ≤ 9 :=
  reachable_TimeInv s h

/-- Witness for C1 at the concrete reachable state reached by pressing
Start and then ticking once. -/
theorem C1_reachable_digit_invariant_witness :
    (Timer_0A_Periodic_Task (PMOD_BTN_Handler 0x04 initState)).ms_elapsed ≤ 99 ∧
    (Timer_0A_Periodic_Task (PMOD_BTN_Handler 0x04 initState)).milliseconds ≤ 9 ∧
    (Timer_0A_Periodic_Task (PMOD_BTN_Handler 0x04 initState)).seconds ≤ 59 ∧
    (Timer_0A_Periodic_Task (PMOD_BTN_Handler 0x04 initState)).minutes ≤ 9 :=
  C1_reachable_digit_invariant _ (Reachable.tick (Reachable.pmod 0x04 Reachable.init))

/-- C4: value extraction is the pure function returning
`[milliseconds, seconds mod 10, seconds / 10, minutes]` for every
state, and on the state `(ms=7, sec=45, min=3)` it yields `[7, 5, 4, 3]`. -/
theorem C4_extraction_correct :
    (∀ s : State,
      Calculate_Stopwatch_Value s =
        [s.milliseconds, s.seconds % 10, s.seconds / 10, s.minutes]) ∧
    Calculate_Stopwatch_Value
      { ms_elapsed := 0, milliseconds := 7, seconds := 45, minutes := 3,
        start_stopwatch := 0, reset_stopwatch := 0, counter := 0,
        rgb_led := RGBLedValue.OFF } = [7, 5, 4, 3] :=
  ⟨fun _ => rfl, by decide⟩

/-- C7: from the all-maximal running state `(subMs=99, ms=9, sec=59,
min=9)` with no reset pending, a single tick-handler invocation
propagates all four carries and leaves every counter at 0 (flags and
indicator untouched). -/
theorem C7_cascading_carries :
    Timer_0A_Periodic_Task
      { ms_elapsed := 99, milliseconds := 9, seconds := 59, minutes := 9,
        start_stopwatch := 1, reset_stopwatch := 0, counter := 0,
        rgb_led := RGBLedValue.OFF } =
      { ms_elapsed := 0, milliseconds := 0, seconds := 0, minutes := 0,
        start_stopwatch := 1, reset_stopwatch := 0, counter := 0,
        rgb_led := RGBLedValue.OFF } := by
  decide

/-- Iterating the tick handler `n` times. -/
def tickN : Nat → State → State
  | 0, s => s
  | n + 1, s => Timer_0A_Periodic_Task (tickN n s)

/-- The all-zero counter state with `start_stopwatch` set (running). -/
def runZero : State := { initState with start_stopwatch := 1 }

/-- Closed form of the running stopwatch after `n` ticks from `runZero`. -/
def runStateAt (n : Nat) : State :=
  { ms_elapsed := n % 100, milliseconds := n / 100 % 10,
    seconds := n / 1000 % 60, minutes := n / 60000 % 10,
    start_stopwatch := 1, reset_stopwatch := 0, counter := 0,
    rgb_led := RGBLedValue.OFF }

theorem tick_runStateAt (n : Nat) :
    Timer_0A_Periodic_Task (runStateAt n) = runStateAt (n + 1) := by
  simp only [Timer_0A_Periodic_Task, runStateAt]
  split_ifs <;> simp_all [State.mk.injEq] <;> omega

theorem tickN_runZero (n : Nat) : tickN n runZero = runStateAt n := by
  induction n with
  | zero => decide
  | succ n ih => simp only [tickN, ih, tick_runStateAt]

/-- C2: from the all-zero state with the run flag set and no reset
pending, 100 ticks give `milliseconds = 1` (all other counters 0),
1000 ticks give `seconds = 1, milliseconds = 0`, 60000 ticks give
`minutes = 1, seconds = 0, milliseconds = 0`, and 600000 ticks wrap
`minutes` back to 0 with `seconds = 0, milliseconds = 0`. -/
theorem C2_carry_milestones :
    (tickN 100 runZero).milliseconds = 1 ∧ (tickN 100 runZero).ms_elapsed = 0 ∧
    (tickN 100 runZero).seconds = 0 ∧ (tickN 100 runZero).minutes = 0 ∧
    (tickN 1000 runZero).seconds = 1 ∧ (tickN 1000 runZero).milliseconds = 0 ∧
    (tickN 60000 runZero).minutes = 1 ∧ (tickN 60000 runZero).seconds = 0 ∧
    (tickN 60000 runZero).milliseconds = 0 ∧
    (tickN 600000 runZero).minutes = 0 ∧ (tickN 600000 runZero).seconds = 0 ∧
    (tickN 600000 runZero).milliseconds = 0 := by
  simp [tickN_runZero, runStateAt]

/-- A tick with a pending reset request ends in the stopped, zeroed
state whatever the counters and run flag were. -/
theorem tick_of_reset (s : State) (h : s.reset_stopwatch = 1) :
    Timer_0A_Periodic_Task s =
      { s with
        ms_elapsed := 0
        milliseconds := 0
        seconds := 0
        minutes := 0
        start_stopwatch := 0
        reset_stopwatch := 0 } := by
  simp only [Timer_0A_Periodic_Task]
  split_ifs <;> simp_all

/-- A tick with the run flag cleared and no pending reset is the
identity on the whole state. -/
theorem tick_stopped (s : State) (h0 : s.start_stopwatch = 0)
    (h1 : s.reset_stopwatch = 0) : Timer_0A_Periodic_Task s = s := by
  simp only [Timer_0A_Periodic_Task]
  split_ifs <;> simp_all

theorem tickN_stopped (n : Nat) (s : State) (h0 : s.start_stopwatch = 0)
    (h1 : s.reset_stopwatch = 0) : tickN n s = s := by
  induction n with
  | zero => rfl
  | succ n ih => simp only [tickN, ih, tick_stopped s h0 h1]

/-- C3: whatever the counters and the run flag were, a tick with a
pending reset request zeroes all four counters and clears both flags,
and a second consecutive tick (no new reset, run flag still clear)
changes nothing.  In particular a reset always also stops
accumulation. -/
theorem C3_reset_stops_and_zeroes (s : State) (h : s.reset_stopwatch = 1) :
    (Timer_0A_Periodic_Task s).ms_elapsed = 0 ∧
    (Timer_0A_Periodic_Task s).milliseconds = 0 ∧
    (Timer_0A_Periodic_Task s).seconds = 0 ∧
    (Timer_0A_Periodic_Task s).minutes = 0 ∧
    (Timer_0A_Periodic_Task s).start_stopwatch = 0 ∧
    (Timer_0A_Periodic_Task s).reset_stopwatch = 0 ∧
    Timer_0A_Periodic_Task (Timer_0A_Periodic_Task s) =
      Timer_0A_Periodic_Task s := by
  rw [tick_of_reset s h]
  refine ⟨rfl, rfl, rfl, rfl, rfl, rfl, ?_⟩
  exact tick_stopped _ rfl rfl

/-- Witness for C3 at a concrete running, nonzero state with the reset
flag set. -/
theorem C3_reset_stops_and_zeroes_witness :
    (Timer_0A_Periodic_Task
      { ms_elapsed := 12, milliseconds := 3, seconds := 45, minutes := 6,
        start_stopwatch := 1, reset_stopwatch := 1, counter := 7,
        rgb_led := RGBLedValue.GREEN }).ms_elapsed = 0 ∧
    (Timer_0A_Periodic_Task
      { ms_elapsed := 12, milliseconds := 3, seconds := 45, minutes := 6,
        start_stopwatch := 1, reset_stopwatch := 1, counter := 7,
        rgb_led := RGBLedValue.GREEN }).milliseconds = 0 ∧
    (Timer_0A_Periodic_Task
      { ms_elapsed := 12, milliseconds := 3, seconds := 45, minutes := 6,
        start_stopwatch := 1, reset_stopwatch := 1, counter := 7,
        rgb_led := RGBLedValue.GREEN }).seconds = 0 ∧
    (Timer_0A_Periodic_Task
      { ms_elapsed := 12, milliseconds := 3, seconds := 45, minutes := 6,
        start_stopwatch := 1, reset_stopwatch := 1, counter := 7,
        rgb_led := RGBLedValue.GREEN }).minutes = 0 ∧
    (Timer_0A_Periodic_Task
      { ms_elapsed := 12, milliseconds := 3, seconds := 45, minutes := 6,
        start_stopwatch := 1, reset_stopwatch := 1, counter := 7,
        rgb_led := RGBLedValue.GREEN }).start_stopwatch = 0 ∧
    (Timer_0A_Periodic_Task
      { ms_elapsed := 12, milliseconds := 3, seconds := 45, minutes := 6,
        start_stopwatch := 1, reset_stopwatch := 1, counter := 7,
        rgb_led := RGBLedValue.GREEN }).reset_stopwatch = 0 ∧
    Timer_0A_Periodic_Task (Timer_0A_Periodic_Task
      { ms_elapsed := 12, milliseconds := 3, seconds := 45, minutes := 6,
        start_stopwatch := 1, reset_stopwatch := 1, counter := 7,
        rgb_led := RGBLedValue.GREEN }) =
      Timer_0A_Periodic_Task
      { ms_elapsed := 12, milliseconds := 3, seconds := 45, minutes := 6,
        start_stopwatch := 1, reset_stopwatch := 1, counter := 7,
        rgb_led := RGBLedValue.GREEN } :=
  C3_reset_stops_and_zeroes _ rfl

/-- C5: the Start byte `0x04` sets the run flag and turns the
indicator green (running), the Stop byte `0x08` clears the run flag
and turns it red (stopped), the Reset byte `0x10` sets the reset
request flag and turns it off, the reserved byte `0x20` is a no-op,
and any unrecognized byte is a no-op on the whole state. -/
theorem C5_control_input_mapping (s : State) (b : Nat)
    (hb : b ≠ 0x04 ∧ b ≠ 0x08 ∧ b ≠ 0x10 ∧ b ≠ 0x20) :
    PMOD_BTN_Handler 0x04 s =
      { s with start_stopwatch := 1, rgb_led := RGBLedValue.GREEN } ∧
    PMOD_BTN_Handler 0x08 s =
      { s with start_stopwatch := 0, rgb_led := RGBLedValue.RED } ∧
    PMOD_BTN_Handler 0x10 s =
      { s with reset_stopwatch := 1, rgb_led := RGBLedValue.OFF } ∧
    PMOD_BTN_Handler 0x20 s = s ∧
    PMOD_BTN_Handler b s = s := by
  obtain ⟨h4, h8, h16, h32⟩ := hb
  refine ⟨?_, ?_, ?_, ?_, ?_⟩ <;>
    simp only [ PMOD_BTN_Handler] <;> split_ifs <;> simp_all

/-- Witness for C5 at a concrete state and unrecognized byte 0. -/
theorem C5_control_input_mapping_witness :
    PMOD_BTN_Handler 0x04 initState =
      { initState with start_stopwatch := 1, rgb_led := RGBLedValue.GREEN } ∧
    PMOD_BTN_Handler 0x08 initState =
      { initState with start_stopwatch := 0, rgb_led := RGBLedValue.RED } ∧
    PMOD_BTN_Handler 0x10 initState =
      { initState with reset_stopwatch := 1, rgb_led := RGBLedValue.OFF } ∧
    PMOD_BTN_Handler 0x20 initState = initState ∧
    PMOD_BTN_Handler 0 initState = initState :=
  C5_control_input_mapping initState 0 (by decide)

/-- C6 as stated is false: a stopped state with a pending reset
request and `seconds = 5` has its `seconds` counter changed (to 0) by
a single tick even though the run flag is clear. -/
theorem C6_counterexample :
    ({ initState with seconds := 5, reset_stopwatch := 1 } : State).start_stopwatch = 0 ∧
    ¬ (tickN 1 { initState with seconds := 5, reset_stopwatch := 1 }).seconds =
        ({ initState with seconds := 5, reset_stopwatch := 1 } : State).seconds := by
  decide

/-- C6 amended: with the run flag clear and no pending reset request,
any number of ticks leaves every counter (indeed the whole state)
unchanged. -/
theorem C6_stop_freezes_counters (s : State) (n : Nat)
    (h0 : s.start_stopwatch = 0) (h1 : s.reset_stopwatch = 0) :
    (tickN n s).ms_elapsed = s.ms_elapsed ∧
    (tickN n s).milliseconds = s.milliseconds ∧
    (tickN n s).seconds = s.seconds ∧
    (tickN n s).minutes = s.minutes := by
  rw [tickN_stopped n s h0 h1]
  exact ⟨rfl, rfl, rfl, rfl⟩

/-- Witness for C6 (amended) at a concrete stopped state after 7 ticks. -/
theorem C6_stop_freezes_counters_witness :
    (tickN 7
      { ms_elapsed := 3, milliseconds := 4, seconds := 5, minutes := 6,
        start_stopwatch := 0, reset_stopwatch := 0, counter := 0,
        rgb_led := RGBLedValue.RED }).ms_elapsed = 3 ∧
    (tickN 7
      { ms_elapsed := 3, milliseconds := 4, seconds := 5, minutes := 6,
        start_stopwatch := 0, reset_stopwatch := 0, counter := 0,
        rgb_led := RGBLedValue.RED }).milliseconds = 4 ∧
    (tickN 7
      { ms_elapsed := 3, milliseconds := 4, seconds := 5, minutes := 6,
        start_stopwatch := 0, reset_stopwatch := 0, counter := 0,
        rgb_led := RGBLedValue.RED }).seconds = 5 ∧
    (tickN 7
      { ms_elapsed := 3, milliseconds := 4, seconds := 5, minutes := 6,
        start_stopwatch := 0, reset_stopwatch := 0, counter := 0,
        rgb_led := RGBLedValue.RED }).minutes = 6 :=
  C6_stop_freezes_counters _ 7 rfl rfl

/-- C8: a Start (`0x04`) or Stop (`0x08`) control input changes only
the run flag and the indicator: the four counters, the reset request
flag and the selection counter are untouched. -/
theorem C8_start_stop_frame (s : State) :
    ((PMOD_BTN_Handler 0x04 s).ms_elapsed = s.ms_elapsed ∧
     (PMOD_BTN_Handler 0x04 s).milliseconds = s.milliseconds ∧
     (PMOD_BTN_Handler 0x04 s).seconds = s.seconds ∧
     (PMOD_BTN_Handler 0x04 s).minutes = s.minutes ∧
     (PMOD_BTN_Handler 0x04 s).reset_stopwatch = s.reset_stopwatch ∧
     (PMOD_BTN_Handler 0x04 s).counter = s.counter) ∧
    ((PMOD_BTN_Handler 0x08 s).ms_elapsed = s.ms_elapsed ∧
     (PMOD_BTN_Handler 0x08 s).milliseconds = s.milliseconds ∧
     (PMOD_BTN_Handler 0x08 s).seconds = s.seconds ∧
     (PMOD_BTN_Handler 0x08 s).minutes = s.minutes ∧
     (PMOD_BTN_Handler 0x08 s).reset_stopwatch = s.reset_stopwatch ∧
     (PMOD_BTN_Handler 0x08 s).counter = s.counter) := by
  constructor <;>
    refine ⟨?_, ?_, ?_, ?_, ?_, ?_⟩ <;>
      simp only [ PMOD_BTN_Handler] <;> split_ifs <;> simp_all

/-- The selection-counter range invariant. -/
def CtrlInv (s : State) : Prop := s.counter ≤ 15

theorem tick_preserves_CtrlInv (s : State) (h : CtrlInv s) :
    CtrlInv (Timer_0A_Periodic_Task s) := by
  simp only [Timer_0A_Periodic_Task, CtrlInv] at h ⊢
  split_ifs <;> simp_all

theorem pmod_preserves_CtrlInv (b : Nat) (s : State) (h : CtrlInv s) :
    CtrlInv (PMOD_BTN_Handler b s) := by
  simp only [CtrlInv, PMOD_BTN_Handler] at h ⊢
  split_ifs <;> simp_all

theorem edubase_preserves_CtrlInv (b : Nat) (s : State) (h : CtrlInv s) :
    CtrlInv (EduBase_Button_Handler b s) := by
  simp only [EduBase_Button_Handler, CtrlInv] at h ⊢
  split_ifs <;> simp_all <;> omega

theorem reachable_CtrlInv (s : State) (h : Reachable s) : s.counter ≤ 15 := by
  induction h with
  | init => decide
  | tick _ ih => exact tick_preserves_CtrlInv _ ih
  | pmod b _ ih => exact pmod_preserves_CtrlInv b _ ih
  | edubase b _ ih => exact edubase_preserves_CtrlInv b _ ih

/-- C9: in every reachable state the selection counter is in `[0,15]`
and stays there after any secondary input; the increment byte `0x08`
takes 15 to 0 and otherwise adds 1, the decrement byte `0x04` takes 0
to 15 and otherwise subtracts 1, and no secondary input touches any
timekeeping variable or flag. -/
theorem C9_selection_counter (s : State) (b : Nat) (h : Reachable s) :
    s.counter ≤ 15 ∧
    (EduBase_Button_Handler b s).counter ≤ 15 ∧
    (EduBase_Button_Handler 0x08 s).counter =
      (if s.counter = 15 then 0 else s.counter + 1) ∧
    (EduBase_Button_Handler 0x04 s).counter =
      (if s.counter = 0 then 15 else s.counter - 1) ∧
    (EduBase_Button_Handler b s).ms_elapsed = s.ms_elapsed ∧
    (EduBase_Button_Handler b s).milliseconds = s.milliseconds ∧
    (EduBase_Button_Handler b s).seconds = s.seconds ∧
    (EduBase_Button_Handler b s).minutes = s.minutes ∧
    (EduBase_Button_Handler b s).start_stopwatch = s.start_stopwatch ∧
    (EduBase_Button_Handler b s).reset_stopwatch = s.reset_stopwatch := by
  have hc := reachable_CtrlInv s h
  have hb := edubase_preserves_CtrlInv b s hc
  simp only [CtrlInv] at hb
  refine ⟨hc, hb, ?_, ?_, ?_, ?_, ?_, ?_, ?_, ?_⟩ <;>
    simp only [EduBase_Button_Handler] <;> split_ifs <;> simp_all <;> omega

/-- Witness for C9 at the initial state with unrecognized byte 0. -/
theorem C9_selection_counter_witness :
    initState.counter ≤ 15 ∧
    (EduBase_Button_Handler 0 initState).counter ≤ 15 ∧
    (EduBase_Button_Handler 0x08 initState).counter =
      (if initState.counter = 15 then 0 else initState.counter + 1) ∧
    (EduBase_Button_Handler 0x04 initState).counter =
      (if initState.counter = 0 then 15 else initState.counter - 1) ∧
    (EduBase_Button_Handler 0 initState).ms_elapsed = initState.ms_elapsed ∧
    (EduBase_Button_Handler 0 initState).milliseconds = initState.milliseconds ∧
    (EduBase_Button_Handler 0 initState).seconds = initState.seconds ∧
    (EduBase_Button_Handler 0 initState).minutes = initState.minutes ∧
    (EduBase_Button_Handler 0 initState).start_stopwatch = initState.start_stopwatch ∧
    (EduBase_Button_Handler 0 initState).reset_stopwatch = initState.reset_stopwatch :=
  C9_selection_counter initState 0 Reachable.init

/-- C10: if Reset fires and then Start fires before the next tick,
that next tick still zeroes all four counters and leaves the stopwatch
stopped (both flags clear): the pending reset overrides the Start. -/
theorem C10_reset_overrides_start (s : State) :
    (Timer_0A_Periodic_Task
      (PMOD_BTN_Handler 0x04 (PMOD_BTN_Handler 0x10 s))).ms_elapsed = 0 ∧
    (Timer_0A_Periodic_Task
      (PMOD_BTN_Handler 0x04 (PMOD_BTN_Handler 0x10 s))).milliseconds = 0 ∧
    (Timer_0A_Periodic_Task
      (PMOD_BTN_Handler 0x04 (PMOD_BTN_Handler 0x10 s))).seconds = 0 ∧
    (Timer_0A_Periodic_Task
      (PMOD_BTN_Handler 0x04 (PMOD_BTN_Handler 0x10 s))).minutes = 0 ∧
    (Timer_0A_Periodic_Task
      (PMOD_BTN_Handler 0x04 (PMOD_BTN_Handler 0x10 s))).start_stopwatch = 0 ∧
    (Timer_0A_Periodic_Task
      (PMOD_BTN_Handler 0x04 (PMOD_BTN_Handler 0x10 s))).reset_stopwatch = 0 := by
  have h : (PMOD_BTN_Handler 0x04 (PMOD_BTN_Handler 0x10 s)).reset_stopwatch = 1 := by
    simp only [ PMOD_BTN_Handler]
    norm_num
  rw [tick_of_reset _ h]
  exact ⟨rfl, rfl, rfl, rfl, rfl, rfl⟩

end Stopwatch
